import Mathlib

/-!
Verification of the stream-capture and orchestration core of the Syndicate
ingestion service (`services/ingestion`).  The definitions below are a shallow
embedding of the Python source: each definition carries a reference to the
function it translates.
-/

namespace Syndicate

/-- Model of `IngestionStatus` from `models/schemas.py` (lines 25-31). -/
inductive IngestionStatus where
  | pending
  | inProgress
  | completed
  | failed
  | cancelled
deriving DecidableEq, Repr

/-- Terminal lifecycle states (spec §3: terminal = Completed, Failed, Cancelled). -/
def IngestionStatus.isTerminal : IngestionStatus → Bool
  | .completed => true
  | .failed => true
  | .cancelled => true
  | _ => false

/-- Model of `CaptureMode` from `models/schemas.py` (lines 18-22). -/
inductive CaptureMode where
  | singleFrame
  | continuous
  | eventDriven
deriving DecidableEq, Repr

/-- Model of `RTSPSettings` from `config.py` (lines 58-67), with its field defaults. -/
structure RTSPSettings where
  maxConcurrentStreams : Nat := 10
  frameBufferSize : Nat := 100
  captureTimeout : Nat := 30
  reconnectAttempts : Nat := 3
  reconnectDelay : Nat := 5
deriving DecidableEq, Repr

/-- The `RTSPSettings` instance with every field at its `config.py` default. -/
def defaultRTSP : RTSPSettings := {}

/-- Model of `queue.Queue(maxsize)` as used for `self.frame_queue` in
`rtsp_capture.py` line 59: a FIFO list (head = oldest) with a capacity bound.
In Python a `maxsize` of zero means an unbounded queue. -/
structure FrameQueue (α : Type) where
  maxsize : Nat
  items : List α
deriving DecidableEq, Repr

/-- Model of `Queue.put_nowait(item)`: fails (raises `Full`, here `none`) iff the queue
has a positive bound and is at (or beyond) it; otherwise appends the item. -/
def FrameQueue.put_nowait (q : FrameQueue α) (x : α) : Option (FrameQueue α) :=
  if q.maxsize ≠ 0 ∧ q.maxsize ≤ q.items.length then none
  else some { q with items := q.items ++ [x] }

/-- Model of `Queue.get_nowait()`: fails (raises `Empty`, here `none`) iff the queue is
empty; otherwise removes and returns the oldest item. -/
def FrameQueue.get_nowait (q : FrameQueue α) : Option (α × FrameQueue α) :=
  match q.items with
  | [] => none
  | x :: rest => some (x, { q with items := rest })

/-- Model of `RTSPStreamCapture._add_frame_to_queue` (`rtsp_capture.py` lines 242-259):
try `put_nowait`; on `Full` drop the oldest entry with `get_nowait` and retry
`put_nowait` once (any failure of the retry is logged and swallowed). -/
def add_frame_to_queue (q : FrameQueue α) (x : α) : FrameQueue α :=
  match q.put_nowait x with
  | some q1 => q1
  | none =>
    match q.get_nowait with
    | some (_, q1) =>
      match q1.put_nowait x with
      | some q2 => q2
      | none => q1
    | none => q

/-- Model of `RTSPStreamCapture.get_all_frames` (`rtsp_capture.py` lines 306-319):
pops with `get_nowait` until the queue reports empty, so it returns every
buffered entry in FIFO (arrival) order and leaves the queue empty. -/
def get_all_frames (q : FrameQueue α) : List α × FrameQueue α :=
  (q.items, { q with items := [] })

/-- Semantics of `Queue.get(block, timeout)` in this single-producer,
single-consumer model: whether or not the call may block, it returns the
oldest entry when one is present; with no entry present a non-blocking call
raises `Empty` at once and a blocking call raises `Empty` on expiry of its
(always finite here) timeout — both modelled as `none`. -/
def queueGet (q : FrameQueue α) (block : Bool) : Option (α × FrameQueue α) :=
  match block, q.items with
  | _, [] => none
  | _, x :: rest => some (x, { q with items := rest })

/-- Model of `RTSPStreamCapture.get_frame` (`rtsp_capture.py` lines 291-304):
`self.frame_queue.get(block=timeout is not None, timeout=timeout)`, returning
`None` when `Empty` is raised. -/
def get_frame (q : FrameQueue α) (timeout : Option Nat) : Option (α × FrameQueue α) :=
  queueGet q timeout.isSome

/-- The `block` flag `get_frame` passes to the queue: `timeout is not None`. -/
def get_frame_blocks (timeout : Option Nat) : Bool :=
  timeout.isSome

/-- The state of one `RTSPStreamCapture` (`rtsp_capture.py` lines 25-71) that
the capture/teardown control flow manipulates: the `is_running` and
`is_connected` events, whether `self.capture` still holds a `VideoCapture`
object, the reconnect counter, and the frame queue. -/
structure RTSPStreamCapture where
  rtspUrl : String
  cameraId : String
  isRunning : Bool
  isConnected : Bool
  hasCapture : Bool
  reconnectAttempts : Nat
  frameQueue : FrameQueue Nat
deriving DecidableEq, Repr

/-- Model of `RTSPStreamCapture.__init__` (`rtsp_capture.py` lines 30-64): events
cleared, no `VideoCapture` yet, attempt counter zero, empty frame queue of
the configured buffer size. -/
def newCapture (s : RTSPSettings) (rtspUrl cameraId : String) : RTSPStreamCapture :=
  { rtspUrl := rtspUrl
    cameraId := cameraId
    isRunning := false
    isConnected := false
    hasCapture := false
    reconnectAttempts := 0
    frameQueue := ⟨s.frameBufferSize, []⟩ }

/-- Model of `RTSPStreamCapture.connect` (`rtsp_capture.py` lines 73-121): always
assigns `self.capture = cv2.VideoCapture(url)`; on a successful test read it
sets `is_connected` and returns, otherwise it clears `is_connected` and raises
`RTSPConnectionError` (without releasing the just-created `VideoCapture`).
`ok` is the outcome of the test read. -/
def RTSPStreamCapture.connect (ok : Bool) (c : RTSPStreamCapture) : RTSPStreamCapture :=
  { c with hasCapture := true, isConnected := ok }

/-- Model of `RTSPStreamCapture.disconnect` (`rtsp_capture.py` lines 123-131): releases
and clears `self.capture`, clears `is_connected`. -/
def RTSPStreamCapture.disconnect (c : RTSPStreamCapture) : RTSPStreamCapture :=
  { c with hasCapture := false, isConnected := false }

/-- Model of `RTSPStreamCapture.stop` (`rtsp_capture.py` lines 157-168): if
`is_running` is not set it returns immediately; otherwise it clears
`is_running`, joins the capture thread with a 5-second bound, and calls
`disconnect`. -/
def RTSPStreamCapture.stop (c : RTSPStreamCapture) : RTSPStreamCapture :=
  if c.isRunning = false then c
  else RTSPStreamCapture.disconnect { c with isRunning := false }

/-- The epilogue every exit of `RTSPStreamCapture._capture_loop` runs
(`rtsp_capture.py` line 240, reached from the duration-reached `break` at
line 206 and from the reconnect-ceiling stop): `self.is_running.clear()`,
with no `disconnect`. -/
def captureLoopExit (c : RTSPStreamCapture) : RTSPStreamCapture :=
  { c with isRunning := false }

/-- Model of `RTSPStreamCapture._handle_reconnection` (`rtsp_capture.py` lines
261-289): at or beyond the attempt ceiling it clears `is_running` and returns
without sleeping; otherwise it increments the counter, sleeps
`reconnect_delay * attempts` seconds, disconnects, reattempts `connect`
(outcome `connectOk`), and resets the counter to zero on success.  Returns the
new state and the slept delay (`none` when the ceiling path is taken). -/
def handle_reconnection (s : RTSPSettings) (connectOk : Bool)
    (c : RTSPStreamCapture) : RTSPStreamCapture × Option Nat :=
  if s.reconnectAttempts ≤ c.reconnectAttempts then
    ({ c with isRunning := false }, none)
  else
    let attempts := c.reconnectAttempts + 1
    let delay := s.reconnectDelay * attempts
    let c1 := RTSPStreamCapture.disconnect { c with reconnectAttempts := attempts }
    let c2 := RTSPStreamCapture.connect connectOk c1
    if connectOk then ({ c2 with reconnectAttempts := 0 }, some delay)
    else (c2, some delay)

/-- Runs `n` consecutive invocations of `_handle_reconnection` against a source
whose `connect` always fails, collecting the backoff delays slept. -/
def reconnectRun (s : RTSPSettings) (c : RTSPStreamCapture) :
    Nat → RTSPStreamCapture × List Nat
  | 0 => (c, [])
  | n + 1 =>
    let step := handle_reconnection s false c
    let rest := reconnectRun s step.1 n
    (rest.1, step.2.toList ++ rest.2)

/-- A Python `dict` used as `self.active_captures` (`rtsp_capture.py` line
350): association list in insertion order with unique keys; assignment to an
existing key replaces its value in place. -/
def dictInsert (l : List (String × β)) (k : String) (v : β) : List (String × β) :=
  if l.any (fun p => p.1 = k) then
    l.map (fun p => if p.1 = k then (k, v) else p)
  else l ++ [(k, v)]

/-- Membership test `k in d` on a Python dict. -/
def dictHas (l : List (String × β)) (k : String) : Bool :=
  l.any (fun p => p.1 = k)

/-- Deletion `del d[k]` on a Python dict. -/
def dictErase (l : List (String × β)) (k : String) : List (String × β) :=
  l.filter (fun p => ¬ p.1 = k)

/-- Lookup `d.get(k)` on a Python dict. -/
def dictGet (l : List (String × β)) (k : String) : Option β :=
  (l.find? (fun p => p.1 = k)).map (·.2)

/-- Model of `RTSPCaptureManager` (`rtsp_capture.py` lines 342-352): the settings read
at construction and the `active_captures` dict. -/
structure RTSPCaptureManager where
  settings : RTSPSettings
  activeCaptures : List (String × RTSPStreamCapture)
deriving DecidableEq, Repr

/-- The error raised by `create_capture`: `ResourceLimitError` with
`details={"active_captures": len(self.active_captures)}`. -/
structure ResourceLimitError where
  activeCaptures : Nat
deriving DecidableEq, Repr

/-- Model of `RTSPCaptureManager.create_capture` (`rtsp_capture.py` lines 354-396):
under the manager lock, raise `ResourceLimitError` carrying the current
active count when `len(active_captures) >= max_concurrent_streams`; otherwise
construct a fresh `RTSPStreamCapture` and assign it to
`active_captures[camera_id]`. -/
def create_capture (m : RTSPCaptureManager) (rtspUrl cameraId : String) :
    Except ResourceLimitError (RTSPStreamCapture × RTSPCaptureManager) :=
  if m.settings.maxConcurrentStreams ≤ m.activeCaptures.length then
    .error ⟨m.activeCaptures.length⟩
  else
    let capture := newCapture m.settings rtspUrl cameraId
    .ok (capture, { m with activeCaptures := dictInsert m.activeCaptures cameraId capture })

/-- Model of `RTSPCaptureManager.remove_capture` (`rtsp_capture.py` lines 398-410):
under the manager lock, if the key is registered, `stop()` the capture and
delete the entry; otherwise do nothing. -/
def remove_capture (m : RTSPCaptureManager) (cameraId : String) : RTSPCaptureManager :=
  if dictHas m.activeCaptures cameraId then
    { m with activeCaptures := dictErase m.activeCaptures cameraId }
  else m

/-- One call against the registry: `create_capture` (its return value, or the
raised `ResourceLimitError`, goes to the caller; the registry keeps the new
state only on success) or `remove_capture`. -/
inductive RegistryOp where
  | create (rtspUrl cameraId : String)
  | remove (cameraId : String)

/-- Effect of one registry call on the registry state. -/
def registryStep (m : RTSPCaptureManager) : RegistryOp → RTSPCaptureManager
  | .create rtspUrl cameraId =>
    match create_capture m rtspUrl cameraId with
    | .ok r => r.2
    | .error _ => m
  | .remove cameraId => remove_capture m cameraId

/-- A freshly constructed manager (`RTSPCaptureManager.__init__`). -/
def newManager (s : RTSPSettings) : RTSPCaptureManager :=
  { settings := s, activeCaptures := [] }

/-- Run a sequence of registry calls from a fresh manager. -/
def runRegistry (s : RTSPSettings) (ops : List RegistryOp) : RTSPCaptureManager :=
  ops.foldl registryStep (newManager s)

/-- The already-registered stream session of the C9 scenario: registered under
key "cam-1", currently running and connected. -/
def staleSession : RTSPStreamCapture :=
  { newCapture defaultRTSP "rtsp://old" "cam-1" with
    isRunning := true, isConnected := true, hasCapture := true }

/-- A manager below its ceiling whose map already holds "cam-1". -/
def occupiedManager : RTSPCaptureManager :=
  { settings := defaultRTSP, activeCaptures := [("cam-1", staleSession)] }

/-- The columns of an `IngestionRequest` row that `update_status` touches
(`repositories/database.py`). -/
structure IngestionRequest where
  status : IngestionStatus
  message : Option String
  errorDetails : Option String
  completedAt : Bool
deriving DecidableEq, Repr

/-- Model of `IngestionRequestRepository.update_status` (`database.py` lines 163-196):
unconditionally overwrites `status` (no guard on the current state); copies
`message` and `error_details` into the row only when truthy (Python: a `None`
or empty message leaves the column alone); sets `completed_at` only when the
new status is COMPLETED. -/
def update_status (r : IngestionRequest) (status : IngestionStatus)
    (message : Option String) (errorDetails : Option String) : IngestionRequest :=
  { status := status
    message := match message with
      | some msg => if msg = "" then r.message else some msg
      | none => r.message
    errorDetails := match errorDetails with
      | some d => some d
      | none => r.errorDetails
    completedAt := if status = .completed then true else r.completedAt }

/-- Externally observable actions of one orchestrated request, in program
order: lifecycle status updates (with whether a message and a structured
error-detail payload were attached), session acquisition and removal against
the `RTSPCaptureManager`, and per-frame storage hand-offs. -/
inductive Event where
  | updateStatus (status : IngestionStatus) (hasMessage hasDetails : Bool)
  | createCapture
  | removeCapture
  | storeFrame
deriving DecidableEq, Repr

/-- The exception classes that can cross `process_rtsp_request` /
`process_upload_request` (`utils/exceptions.py` and the `IngestionException`s
the orchestrator itself raises). -/
inductive OrchErr where
  | resourceLimit
  | connection
  | noFrames
  | storage
  | uploadBatch
  | noFilesProcessed
  | noFramesStored
deriving DecidableEq, Repr

/-- Environment of one `process_rtsp_request` run: which collaborator calls
fail and how many frames the capture session yields. -/
structure RtspEnv where
  resourceLimit : Bool
  startFails : Bool
  drainedFrames : Nat
  captureMode : CaptureMode
  fallbackFrame : Bool
  storeFails : Bool
deriving DecidableEq, Repr

/-- Frames held after the drain and the single-frame fallback
(`orchestrator.py` lines 110-117): `get_all_frames`, then — only when that
was empty and the mode is SINGLE_FRAME — one `get_frame(timeout=5.0)`. -/
def rtspFrames (env : RtspEnv) : Nat :=
  if env.drainedFrames = 0 ∧ env.captureMode = .singleFrame ∧ env.fallbackFrame then 1
  else env.drainedFrames

/-- The `try` block of `IngestionOrchestrator.process_rtsp_request`
(`orchestrator.py` lines 85-164): status to IN_PROGRESS; `create_capture`
(may raise `ResourceLimitError`); `start()` (may raise a connection error);
wait; drain; `stop()` and `remove_capture`; raise if no frames; store each
frame (a storage failure aborts the loop and propagates); status to
COMPLETED. -/
def rtspTry (env : RtspEnv) : Except OrchErr Unit × List Event :=
  let evs := [Event.updateStatus .inProgress true false]
  if env.resourceLimit then (.error .resourceLimit, evs)
  else
    let evs := evs ++ [Event.createCapture]
    if env.startFails then (.error .connection, evs)
    else
      let evs := evs ++ [Event.removeCapture]
      if rtspFrames env = 0 then (.error .noFrames, evs)
      else if env.storeFails then (.error .storage, evs ++ [Event.storeFrame])
      else (.ok (), evs ++ List.replicate (rtspFrames env) Event.storeFrame
                        ++ [Event.updateStatus .completed true false])

/-- Model of `IngestionOrchestrator.process_rtsp_request` (`orchestrator.py` lines
55-185): the `try` block above; its `except` clause (lines 166-185) updates
the status to FAILED with `message=str(e)` and a structured
`error_details` payload, calls `remove_capture` again, and re-raises. -/
def process_rtsp_request (env : RtspEnv) : Except OrchErr Unit × List Event :=
  match rtspTry env with
  | (.ok u, evs) => (.ok u, evs)
  | (.error e, evs) =>
    (.error e, evs ++ [Event.updateStatus .failed true true, Event.removeCapture])

/-- Environment of one `process_upload_request` run. -/
structure UploadEnv where
  batchFails : Bool
  processedFiles : Nat
  storedFrames : Nat
deriving DecidableEq, Repr

/-- The `try` block of `IngestionOrchestrator.process_upload_request`
(`orchestrator.py` lines 215-300): status to IN_PROGRESS; batch processing
(may raise, and raises when it returns no files); store each processed file,
skipping individual failures; raise if none stored; best-effort segmentation
(its errors are swallowed); status to COMPLETED. -/
def uploadTry (env : UploadEnv) : Except OrchErr Unit × List Event :=
  let evs := [Event.updateStatus .inProgress true false]
  if env.batchFails then (.error .uploadBatch, evs)
  else if env.processedFiles = 0 then (.error .noFilesProcessed, evs)
  else
    let stored := min env.storedFrames env.processedFiles
    if stored = 0 then (.error .noFramesStored, evs)
    else (.ok (), evs ++ List.replicate stored Event.storeFrame
                      ++ [Event.updateStatus .completed true false])

/-- Model of `IngestionOrchestrator.process_upload_request` (`orchestrator.py` lines
187-318): the `try` block above; its `except` clause (lines 302-318) updates
the status to FAILED with message and structured detail and re-raises. -/
def process_upload_request (env : UploadEnv) : Except OrchErr Unit × List Event :=
  match uploadTry env with
  | (.ok u, evs) => (.ok u, evs)
  | (.error e, evs) => (.error e, evs ++ [Event.updateStatus .failed true true])

/-- The sequence of `update_status` calls in a trace, each with its status and
whether a message / structured detail was attached. -/
def statusUpdates (t : List Event) : List (IngestionStatus × Bool × Bool) :=
  t.filterMap fun e => match e with
    | .updateStatus s m d => some (s, m, d)
    | _ => none

/-- Model of `asyncio.sleep(min(timeout, 5))` with
`timeout = request.capture_duration or self.settings.rtsp.capture_timeout`
(`orchestrator.py` lines 105-107).  Python `or` falls through on a `None` or
zero duration. -/
def rtspWaitTime (captureDuration : Option Nat) (s : RTSPSettings) : Nat :=
  let timeout : Nat := match captureDuration with
    | some d => if d = 0 then s.captureTimeout else d
    | none => s.captureTimeout
  min timeout 5

/-- The capture wait as the spec words it: "wait up to the smaller of
(configured capture timeout, requested duration)". -/
def specWaitTime (captureDuration : Nat) (s : RTSPSettings) : Nat :=
  min s.captureTimeout captureDuration

/-- The session state reached when `_capture_loop` exits on its own (duration
elapsed or reconnect ceiling): connection still open, `is_running` cleared. -/
def sessionAfterLoopExit : RTSPStreamCapture :=
  captureLoopExit
    { rtspUrl := "rtsp://cam", cameraId := "cam-1", isRunning := true,
      isConnected := true, hasCapture := true, reconnectAttempts := 0,
      frameQueue := ⟨100, []⟩ }

theorem dictInsert_length (l : List (String × β)) (k : String) (v : β) :
    (dictInsert l k v).length = if l.any (fun p => p.1 = k) then l.length
      else l.length + 1 := by
  unfold dictInsert
  split <;> simp

theorem dictErase_length_le (l : List (String × β)) (k : String) :
    (dictErase l k).length ≤ l.length :=
  List.length_filter_le _ _

/-- One registry call never pushes the active count above the ceiling, and
never changes the manager's settings. -/
theorem registryStep_preserves (m : RTSPCaptureManager) (op : RegistryOp)
    (h : m.activeCaptures.length ≤ m.settings.maxConcurrentStreams) :
    (registryStep m op).activeCaptures.length
        ≤ (registryStep m op).settings.maxConcurrentStreams
    ∧ (registryStep m op).settings = m.settings := by
  cases op with
  | create rtspUrl cameraId =>
    simp only [registryStep, create_capture]
    rcases Nat.lt_or_ge m.activeCaptures.length m.settings.maxConcurrentStreams
      with hlt | hge
    · rw [if_neg (by omega)]
      refine ⟨?_, rfl⟩
      show (dictInsert m.activeCaptures cameraId
        (newCapture m.settings rtspUrl cameraId)).length ≤ m.settings.maxConcurrentStreams
      rw [dictInsert_length]
      split <;> omega
    · rw [if_pos (by omega)]
      exact ⟨h, rfl⟩
  | remove cameraId =>
    simp only [registryStep, remove_capture]
    split
    · exact ⟨Nat.le_trans (dictErase_length_le _ _) h, rfl⟩
    · exact ⟨h, rfl⟩

/-- C1: over every sequence of `create_capture` / `remove_capture` calls from
a fresh manager, the number of registered sessions never exceeds
`max_concurrent_streams`; and any create issued when the count equals the
ceiling raises `ResourceLimitError` carrying the current active count and
leaves the registry (hence every existing session) unchanged. -/
theorem session_ceiling_invariant (s : RTSPSettings) (ops : List RegistryOp) :
    (runRegistry s ops).activeCaptures.length ≤ s.maxConcurrentStreams
    ∧ (∀ (m : RTSPCaptureManager) (rtspUrl cameraId : String),
        m.activeCaptures.length = m.settings.maxConcurrentStreams →
          create_capture m rtspUrl cameraId = .error ⟨m.activeCaptures.length⟩
          ∧ registryStep m (.create rtspUrl cameraId) = m) := by
  have aux : ∀ (l : List RegistryOp) (m : RTSPCaptureManager),
      m.activeCaptures.length ≤ m.settings.maxConcurrentStreams →
      (l.foldl registryStep m).activeCaptures.length
          ≤ (l.foldl registryStep m).settings.maxConcurrentStreams
      ∧ (l.foldl registryStep m).settings = m.settings := by
    intro l
    induction l with
    | nil => exact fun m h => ⟨h, rfl⟩
    | cons op rest ih =>
      intro m h
      have hstep := registryStep_preserves m op h
      have hrest := ih (registryStep m op) hstep.1
      exact ⟨hrest.1, hrest.2.trans hstep.2⟩
  constructor
  · have h := aux ops (newManager s) (by simp [newManager])
    have hs : (runRegistry s ops).settings = s := h.2
    have := h.1
    rw [runRegistry] at *
    rw [hs] at this
    exact this
  · intro m rtspUrl cameraId h
    have hcreate : create_capture m rtspUrl cameraId = .error ⟨m.activeCaptures.length⟩ := by
      rw [create_capture, if_pos (by omega)]
    refine ⟨hcreate, ?_⟩
    simp only [registryStep, hcreate]

/-- Witness for C1: ceiling 1; two creates keep the count at 1, and a create
against a manager at its ceiling errors with the count and changes nothing. -/
theorem session_ceiling_invariant_witness :
    (runRegistry { maxConcurrentStreams := 1 }
        [.create "rtsp://a" "cam-1", .create "rtsp://b" "cam-2"]).activeCaptures.length ≤ 1
    ∧ (runRegistry defaultRTSP [.create "rtsp://a" "cam-1"]).activeCaptures.length
        = (runRegistry defaultRTSP [.create "rtsp://a" "cam-1"]).settings.maxConcurrentStreams
        - 9
    ∧ create_capture
        { settings := { maxConcurrentStreams := 1 },
          activeCaptures := [("cam-1", newCapture { maxConcurrentStreams := 1 }
            "rtsp://a" "cam-1")] } "rtsp://b" "cam-2" = .error ⟨1⟩
    ∧ registryStep
        { settings := { maxConcurrentStreams := 1 },
          activeCaptures := [("cam-1", newCapture { maxConcurrentStreams := 1 }
            "rtsp://a" "cam-1")] } (.create "rtsp://b" "cam-2")
      = { settings := { maxConcurrentStreams := 1 },
          activeCaptures := [("cam-1", newCapture { maxConcurrentStreams := 1 }
            "rtsp://a" "cam-1")] } := by
  have h1 := (session_ceiling_invariant { maxConcurrentStreams := 1 }
    [.create "rtsp://a" "cam-1", .create "rtsp://b" "cam-2"]).1
  have h2 := (session_ceiling_invariant { maxConcurrentStreams := 1 } []).2
    { settings := { maxConcurrentStreams := 1 },
      activeCaptures := [("cam-1", newCapture { maxConcurrentStreams := 1 }
        "rtsp://a" "cam-1")] } "rtsp://b" "cam-2" (by decide)
  exact ⟨h1, by decide, h2.1, h2.2⟩

/-- C9 (code bug): with "cam-1" registered and the count (1) below the
ceiling (10), a second `create_capture` for "cam-1" does not fail closed: it
returns successfully and silently replaces the registered session with a
fresh one, discarding the previous session without stopping it (the stale
session is still running and connected when it is dropped from the map). -/
theorem duplicate_key_create_overwrites :
    occupiedManager.activeCaptures.length < occupiedManager.settings.maxConcurrentStreams
    ∧ dictHas occupiedManager.activeCaptures "cam-1" = true
    ∧ create_capture occupiedManager "rtsp://new" "cam-1" =
        .ok (newCapture defaultRTSP "rtsp://new" "cam-1",
             { settings := defaultRTSP,
               activeCaptures := [("cam-1", newCapture defaultRTSP "rtsp://new" "cam-1")] })
    ∧ newCapture defaultRTSP "rtsp://new" "cam-1" ≠ staleSession
    ∧ staleSession.isRunning = true ∧ staleSession.isConnected = true := by
  exact ⟨by decide, by decide, rfl, by decide, rfl, rfl⟩

theorem statusUpdates_append (t u : List Event) :
    statusUpdates (t ++ u) = statusUpdates t ++ statusUpdates u :=
  List.filterMap_append t u _

theorem statusUpdates_replicate_store (n : Nat) :
    statusUpdates (List.replicate n Event.storeFrame) = [] := by
  induction n with
  | zero => rfl
  | succ n ih => rw [List.replicate_succ, statusUpdates, List.filterMap_cons]; exact ih

/-- The status updates `process_rtsp_request` issues: IN_PROGRESS first, then
exactly one terminal update — COMPLETED (message, no detail payload) when the
run returns, FAILED (message and detail payload) when it raises. -/
theorem rtsp_statusUpdates (env : RtspEnv) :
    statusUpdates (process_rtsp_request env).2 =
      match (process_rtsp_request env).1 with
      | .ok _ => [(.inProgress, true, false), (.completed, true, false)]
      | .error _ => [(.inProgress, true, false), (.failed, true, true)] := by
  rcases env with ⟨rl, sf, df, cm, fb, stf⟩
  cases rl
  · cases sf
    · by_cases hf : rtspFrames ⟨false, false, df, cm, fb, stf⟩ = 0
      · simp [process_rtsp_request, rtspTry, hf, statusUpdates]
      · cases stf
        · simp [process_rtsp_request, rtspTry, hf, statusUpdates_append,
            statusUpdates_replicate_store, statusUpdates]
        · simp [process_rtsp_request, rtspTry, hf, statusUpdates]
    · simp [process_rtsp_request, rtspTry, statusUpdates]
  · simp [process_rtsp_request, rtspTry, statusUpdates]

/-- The status updates `process_upload_request` issues: IN_PROGRESS first,
then exactly one terminal update. -/
theorem upload_statusUpdates (env : UploadEnv) :
    statusUpdates (process_upload_request env).2 =
      match (process_upload_request env).1 with
      | .ok _ => [(.inProgress, true, false), (.completed, true, false)]
      | .error _ => [(.inProgress, true, false), (.failed, true, true)] := by
  rcases env with ⟨bf, pf, sf⟩
  cases bf
  · by_cases hp : pf = 0
    · simp [process_upload_request, uploadTry, hp, statusUpdates]
    · by_cases hs : min sf pf = 0
      · simp [process_upload_request, uploadTry, hp, hs, statusUpdates]
      · simp [process_upload_request, uploadTry, hp, hs, statusUpdates_append,
          statusUpdates_replicate_store, statusUpdates]
  · simp [process_upload_request, uploadTry, statusUpdates]

/-- Key lemma for the overflow policy: folding `add_frame_to_queue` over any
input list, starting from a queue of positive capacity `cap` holding at most
`cap` items, keeps exactly the most recent `cap` entries (in arrival order). -/
theorem foldl_add_frame_items (cap : Nat) (hcap : 0 < cap) :
    ∀ (xs : List α) (q : FrameQueue α), q.maxsize = cap → q.items.length ≤ cap →
      (xs.foldl add_frame_to_queue q).items =
        (q.items ++ xs).drop (q.items.length + xs.length - cap) := by
  intro xs
  induction xs with
  | nil =>
    intro q hq hlen
    simp only [List.foldl_nil, List.length_nil, List.append_nil, Nat.add_zero]
    rw [Nat.sub_eq_zero_of_le hlen, List.drop_zero]
  | cons x rest ih =>
    intro q hq hlen
    rcases Nat.lt_or_ge q.items.length cap with hlt | hge
    · -- not at capacity: put_nowait succeeds
      have hcond : ¬(q.maxsize ≠ 0 ∧ q.maxsize ≤ q.items.length) := by omega
      have hstep : add_frame_to_queue q x = { q with items := q.items ++ [x] } := by
        simp only [add_frame_to_queue, FrameQueue.put_nowait]
        rw [if_neg hcond]
      rw [List.foldl_cons, hstep]
      have hrec := ih { q with items := q.items ++ [x] } hq (by simp; omega)
      rw [hrec]
      have hl : q.items ++ [x] ++ rest = q.items ++ x :: rest := by simp
      rw [hl]
      congr 1
      simp only [List.length_append, List.length_cons, List.length_nil]
      omega
    · -- at capacity: evict the oldest, then insert
      have hfull : q.items.length = cap := Nat.le_antisymm hlen hge
      obtain ⟨y, t, hyt⟩ : ∃ y t, q.items = y :: t := by
        cases h : q.items with
        | nil => exfalso; rw [h] at hfull; simp at hfull; omega
        | cons y t => exact ⟨y, t, rfl⟩
      have htlen : t.length + 1 = cap := by
        have h := hfull; rw [hyt] at h; simpa using h
      have hmax : q.maxsize = t.length + 1 := by omega
      have hstep : add_frame_to_queue q x = { q with items := t ++ [x] } := by
        simp [add_frame_to_queue, FrameQueue.put_nowait, FrameQueue.get_nowait, hyt, hmax]
      rw [List.foldl_cons, hstep]
      have hrec := ih { q with items := t ++ [x] } hq (by simp; omega)
      rw [hrec, hyt]
      have h1 : (t ++ [x]).length + rest.length - cap = rest.length := by
        simp only [List.length_append, List.length_cons, List.length_nil]
        omega
      have h2 : (y :: t).length + (x :: rest).length - cap = rest.length + 1 := by
        simp only [List.length_cons]
        omega
      rw [h1, h2]
      simp [List.append_assoc, List.drop_succ_cons]

/-- C2: after `C + k` puts (`k > 0`, capacity `C > 0`) into an initially empty
frame queue with no intervening drains, `get_all_frames` returns exactly the
most recent `C` puts in arrival order (so exactly `C` entries), and a put at
capacity never fails: it evicts the single oldest entry, then admits the new
one. -/
theorem sink_overflow_keeps_recent (cap k : Nat) (hcap : 0 < cap) (hk : 0 < k)
    (xs : List Nat) (hlen : xs.length = cap + k) :
    (get_all_frames (xs.foldl add_frame_to_queue ⟨cap, []⟩)).1 = xs.drop k
    ∧ (get_all_frames (xs.foldl add_frame_to_queue ⟨cap, []⟩)).1.length = cap
    ∧ ∀ (q : FrameQueue Nat) (x : Nat), q.maxsize = cap → q.items.length = cap →
        (add_frame_to_queue q x).items = q.items.drop 1 ++ [x] := by
  have hmain : (xs.foldl add_frame_to_queue (⟨cap, []⟩ : FrameQueue Nat)).items = xs.drop k := by
    have h := foldl_add_frame_items cap hcap xs ⟨cap, []⟩ rfl (by simp)
    simpa [hlen] using h
  refine ⟨hmain, ?_, ?_⟩
  · rw [get_all_frames, hmain, List.length_drop, hlen]
    omega
  · intro q x hq hfull
    obtain ⟨y, t, hyt⟩ : ∃ y t, q.items = y :: t := by
      cases h : q.items with
      | nil => exfalso; rw [h] at hfull; simp at hfull; omega
      | cons y t => exact ⟨y, t, rfl⟩
    have htlen : t.length + 1 = cap := by
      have h := hfull; rw [hyt] at h; simpa using h
    have hmax : q.maxsize = t.length + 1 := by omega
    simp [add_frame_to_queue, FrameQueue.put_nowait, FrameQueue.get_nowait, hyt, hmax]

/-- Witness for C2 at capacity 2, k = 1, puts `[1, 2, 3]`. -/
theorem sink_overflow_keeps_recent_witness :
    (get_all_frames ([1, 2, 3].foldl add_frame_to_queue ⟨2, []⟩)).1 = [2, 3]
    ∧ (add_frame_to_queue (⟨2, [1, 2]⟩ : FrameQueue Nat) 3).items = [2, 3] := by
  have h := sink_overflow_keeps_recent 2 1 (by decide) (by decide) [1, 2, 3] (by decide)
  refine ⟨h.1, ?_⟩
  have h3 := h.2.2 ⟨2, [1, 2]⟩ 3 rfl rfl
  simpa using h3

/-- C10: `get_frame` with `timeout = None` passes `block = False` to the queue,
returns `None` immediately on an empty queue, and returns the oldest entry when
one is present; only a non-`None` timeout sets the blocking flag. -/
theorem get_frame_none_nonblocking (q : FrameQueue Nat) :
    get_frame_blocks none = false
    ∧ (∀ t : Nat, get_frame_blocks (some t) = true)
    ∧ (q.items = [] → get_frame q none = none)
    ∧ (∀ x rest, q.items = x :: rest →
        get_frame q none = some (x, { q with items := rest })) := by
  refine ⟨rfl, fun _ => rfl, ?_, ?_⟩
  · intro h
    simp [get_frame, queueGet, h]
  · intro x rest h
    simp [get_frame, queueGet, h]

/-- Witness for C10 on the empty and the one-entry queue. -/
theorem get_frame_none_nonblocking_witness :
    get_frame (⟨100, []⟩ : FrameQueue Nat) none = none
    ∧ get_frame (⟨100, [7]⟩ : FrameQueue Nat) none = some (7, ⟨100, []⟩) := by
  refine ⟨(get_frame_none_nonblocking ⟨100, []⟩).2.2.1 rfl, ?_⟩
  exact (get_frame_none_nonblocking ⟨100, [7]⟩).2.2.2 7 [] rfl

/-- While the session is below the reconnect ceiling and every `connect`
fails, `n` reconnection calls sleep the linear delays
`delay * (a+1), …, delay * (a+n)`, advance the counter to `a + n`, leave
`is_running` untouched, and leave the session disconnected. -/
theorem reconnectRun_below_ceiling (s : RTSPSettings) :
    ∀ (n : Nat) (c : RTSPStreamCapture),
      c.reconnectAttempts + n ≤ s.reconnectAttempts →
      (reconnectRun s c n).2 =
        (List.range n).map (fun i => s.reconnectDelay * (c.reconnectAttempts + i + 1))
      ∧ (reconnectRun s c n).1.reconnectAttempts = c.reconnectAttempts + n
      ∧ (reconnectRun s c n).1.isRunning = c.isRunning
      ∧ (0 < n → (reconnectRun s c n).1.isConnected = false) := by
  intro n
  induction n with
  | zero =>
    intro c _
    refine ⟨by simp [reconnectRun], by simp [reconnectRun], by simp [reconnectRun], ?_⟩
    intro h
    omega
  | succ n ih =>
    intro c hle
    have hlt : c.reconnectAttempts < s.reconnectAttempts := by omega
    have hstep : handle_reconnection s false c =
        ({ c with reconnectAttempts := c.reconnectAttempts + 1,
                  hasCapture := true, isConnected := false },
         some (s.reconnectDelay * (c.reconnectAttempts + 1))) := by
      simp [handle_reconnection, RTSPStreamCapture.disconnect, RTSPStreamCapture.connect]
      omega
    have hrec := ih { c with reconnectAttempts := c.reconnectAttempts + 1,
                             hasCapture := true, isConnected := false }
      (by show c.reconnectAttempts + 1 + n ≤ s.reconnectAttempts; omega)
    refine ⟨?_, ?_, ?_, fun _ => ?_⟩
    · show (reconnectRun s c (n + 1)).2 = _
      rw [reconnectRun, hstep]
      simp only [Option.toList_some]
      rw [hrec.1]
      rw [List.range_succ_eq_map, List.map_cons, List.map_map]
      refine congrArg₂ _ (by rfl) ?_
      refine List.map_congr_left ?_
      intro i _
      simp only [Function.comp]
      congr 1
      omega
    · show (reconnectRun s c (n + 1)).1.reconnectAttempts = _
      rw [reconnectRun, hstep]
      simp only []
      rw [hrec.2.1]
      simp
      omega
    · show (reconnectRun s c (n + 1)).1.isRunning = _
      rw [reconnectRun, hstep]
      simpa using hrec.2.2.1
    · show (reconnectRun s c (n + 1)).1.isConnected = false
      rw [reconnectRun, hstep]
      simp only []
      cases Nat.eq_zero_or_pos n with
      | inl h0 => subst h0; simp [reconnectRun]
      | inr hpos => exact hrec.2.2.2 hpos

/-- Unfold `reconnectRun` from the back: `n + 1` calls are `n` calls followed
by one more on the resulting state. -/
theorem reconnectRun_succ_back (s : RTSPSettings) :
    ∀ (n : Nat) (c : RTSPStreamCapture),
      reconnectRun s c (n + 1) =
        ((handle_reconnection s false (reconnectRun s c n).1).1,
         (reconnectRun s c n).2 ++
           (handle_reconnection s false (reconnectRun s c n).1).2.toList) := by
  intro n
  induction n with
  | zero =>
    intro c
    simp [reconnectRun]
  | succ n ih =>
    intro c
    show reconnectRun s c (n + 1 + 1) = _
    rw [reconnectRun]
    rw [ih (handle_reconnection s false c).1]
    rw [reconnectRun]
    simp [List.append_assoc]

/-- C3: against a source that always fails to connect, each reconnect attempt
`i` (1-based) is preceded by a sleep of `reconnect_delay * i` — a strictly
increasing linear backoff when the base delay is positive — the session makes
exactly the configured number of attempts and then the next reconnection call
stops the loop (`is_running` cleared) with the session disconnected; a
successful reconnect resets the attempt counter to zero. -/
theorem reconnect_linear_backoff_ceiling (s : RTSPSettings) (c0 : RTSPStreamCapture)
    (hdelay : 0 < s.reconnectDelay) (hmax : 0 < s.reconnectAttempts)
    (h0 : c0.reconnectAttempts = 0) :
    (reconnectRun s c0 (s.reconnectAttempts + 1)).2 =
      (List.range s.reconnectAttempts).map (fun i => s.reconnectDelay * (i + 1))
    ∧ (reconnectRun s c0 (s.reconnectAttempts + 1)).2.length = s.reconnectAttempts
    ∧ List.Pairwise (· < ·) (reconnectRun s c0 (s.reconnectAttempts + 1)).2
    ∧ (reconnectRun s c0 (s.reconnectAttempts + 1)).1.isRunning = false
    ∧ (reconnectRun s c0 (s.reconnectAttempts + 1)).1.isConnected = false
    ∧ (∀ c : RTSPStreamCapture, c.reconnectAttempts < s.reconnectAttempts →
        (handle_reconnection s true c).1.reconnectAttempts = 0) := by
  have hbase := reconnectRun_below_ceiling s s.reconnectAttempts c0 (by omega)
  have hattempts : (reconnectRun s c0 s.reconnectAttempts).1.reconnectAttempts =
      s.reconnectAttempts := by rw [hbase.2.1, h0]; omega
  have hconn : (reconnectRun s c0 s.reconnectAttempts).1.isConnected = false :=
    hbase.2.2.2 hmax
  have hlast : handle_reconnection s false (reconnectRun s c0 s.reconnectAttempts).1 =
      ({ (reconnectRun s c0 s.reconnectAttempts).1 with isRunning := false }, none) := by
    rw [handle_reconnection, if_pos (by omega)]
  have hdecomp := reconnectRun_succ_back s s.reconnectAttempts c0
  have hdelays : (reconnectRun s c0 (s.reconnectAttempts + 1)).2 =
      (List.range s.reconnectAttempts).map (fun i => s.reconnectDelay * (i + 1)) := by
    rw [hdecomp, hlast]
    simp only [Option.toList_none, List.append_nil]
    rw [hbase.1, h0]
    exact List.map_congr_left fun i _ => by simp
  refine ⟨hdelays, ?_, ?_, ?_, ?_, ?_⟩
  · rw [hdelays]; simp
  · rw [hdelays]
    refine List.Pairwise.map _ ?_ (List.pairwise_lt_range _)
    intro a b hab
    exact mul_lt_mul_of_pos_left (by omega) hdelay
  · rw [hdecomp, hlast]
  · rw [hdecomp, hlast]
    simpa using hconn
  · intro c hc
    rw [handle_reconnection, if_neg (by omega)]
    simp

/-- Witness for C3 with the default settings (3 attempts, 5-second base
delay): the slept delays are 5, 10, 15 seconds, then the loop is stopped. -/
theorem reconnect_linear_backoff_ceiling_witness :
    0 < defaultRTSP.reconnectDelay
    ∧ 0 < defaultRTSP.reconnectAttempts
    ∧ (reconnectRun defaultRTSP (newCapture defaultRTSP "rtsp://cam" "cam-1") 4).2 = [5, 10, 15]
    ∧ (reconnectRun defaultRTSP (newCapture defaultRTSP "rtsp://cam" "cam-1") 4).1.isRunning
        = false := by
  have h := reconnect_linear_backoff_ceiling defaultRTSP
    (newCapture defaultRTSP "rtsp://cam" "cam-1") (by decide) (by decide) rfl
  have h4 : defaultRTSP.reconnectAttempts + 1 = 4 := by decide
  rw [h4] at h
  refine ⟨by decide, by decide, ?_, h.2.2.2.1⟩
  rw [h.1]
  decide

/-- C8 (code bug): once the capture loop has exited on its own, `is_running`
is cleared but the connection is still held; `stop()` then returns at its
early-exit guard without calling `disconnect`, so after `stop()` the session
still holds a live connection — contradicting the requirement that a session
never leak its connection. -/
theorem stop_after_loop_exit_leaks_connection :
    sessionAfterLoopExit.isRunning = false
    ∧ sessionAfterLoopExit.isConnected = true
    ∧ sessionAfterLoopExit.hasCapture = true
    ∧ RTSPStreamCapture.stop sessionAfterLoopExit = sessionAfterLoopExit
    ∧ (RTSPStreamCapture.stop sessionAfterLoopExit).isConnected = true
    ∧ (RTSPStreamCapture.stop sessionAfterLoopExit).hasCapture = true := by
  decide

theorem dictHas_dictErase (l : List (String × β)) (k : String) :
    dictHas (dictErase l k) k = false := by
  induction l with
  | nil => rfl
  | cons p t ih =>
    rw [dictErase, List.filter]
    by_cases hp : p.1 = k
    · simp only [hp]
      simpa [dictErase] using ih
    · simp only [decide_not, dictHas, List.any_cons]
      rw [dictHas, dictErase] at ih
      simp [hp, ih]

/-- Removal `remove_capture` is idempotent: once the key is gone, a second call is a
no-op. -/
theorem remove_capture_idem (m : RTSPCaptureManager) (cid : String) :
    remove_capture (remove_capture m cid) cid = remove_capture m cid := by
  by_cases h : dictHas m.activeCaptures cid = true
  · have h1 : remove_capture m cid =
        { m with activeCaptures := dictErase m.activeCaptures cid } := by
      rw [remove_capture, if_pos h]
    rw [h1, remove_capture, if_neg]
    simp [dictHas_dictErase]
  · have h1 : remove_capture m cid = m := by rw [remove_capture, if_neg h]
    rw [h1, h1]

theorem count_removeCapture_replicate_store (n : Nat) :
    (List.replicate n Event.storeFrame).count Event.removeCapture = 0 := by
  induction n with
  | zero => rfl
  | succ n ih => rw [List.replicate_succ, List.count_cons]; simp [ih]

/-- C4 (counterexample): `update_status` has no terminal-state guard — a call
with a non-terminal status on a COMPLETED record moves the record back to
PENDING, a transition out of a terminal state. -/
theorem update_status_can_exit_terminal :
    IngestionStatus.isTerminal .completed = true
    ∧ (update_status
        { status := .completed, message := some "done", errorDetails := none,
          completedAt := true } .pending none none).status = .pending
    ∧ IngestionStatus.isTerminal .pending = false := by
  decide

/-- C4 (amended): `update_status` itself overwrites the status
unconditionally, but in the status sequences the orchestrator actually issues
(for stream and upload requests alike) every update that has a successor is
non-terminal — each request goes PENDING, IN_PROGRESS, then exactly one
terminal status, so no update ever follows a terminal state. -/
theorem lifecycle_monotone_in_orchestrator (envR : RtspEnv) (envU : UploadEnv) :
    List.Chain' (fun a _ => a.isTerminal = false)
      (IngestionStatus.pending ::
        (statusUpdates (process_rtsp_request envR).2).map (fun p => p.1))
    ∧ List.Chain' (fun a _ => a.isTerminal = false)
      (IngestionStatus.pending ::
        (statusUpdates (process_upload_request envU).2).map (fun p => p.1)) := by
  constructor
  · rw [rtsp_statusUpdates]
    cases (process_rtsp_request envR).1 <;>
      simp [List.chain'_cons, IngestionStatus.isTerminal]
  · rw [upload_statusUpdates]
    cases (process_upload_request envU).1 <;>
      simp [List.chain'_cons, IngestionStatus.isTerminal]

/-- C5 (counterexample): on the frame-capture-failure path the orchestrator
acquires a session and invokes `remove_capture` twice — once after the drain
and once in the exception handler — not exactly once. -/
theorem remove_invoked_twice_on_no_frames :
    (process_rtsp_request ⟨false, false, 0, .continuous, false, false⟩).2.count
        Event.createCapture = 1
    ∧ (process_rtsp_request ⟨false, false, 0, .continuous, false, false⟩).2.count
        Event.removeCapture = 2
    ∧ (2 : Nat) ≠ 1 := by
  decide

/-- C5 (amended): on every exit path of `process_rtsp_request` that acquired
a session — success, frame-capture failure, or storage exception —
`remove_capture` is invoked at least once and at most twice, and
`remove_capture` is idempotent, so the extra invocation on failure paths is a
no-op and the session is effectively removed exactly once. -/
theorem remove_runs_on_every_exit_path (env : RtspEnv)
    (h : env.resourceLimit = false) :
    1 ≤ (process_rtsp_request env).2.count Event.removeCapture
    ∧ (process_rtsp_request env).2.count Event.removeCapture ≤ 2
    ∧ ∀ (m : RTSPCaptureManager) (cid : String),
        remove_capture (remove_capture m cid) cid = remove_capture m cid := by
  refine ⟨?_, ?_, fun m cid => remove_capture_idem m cid⟩ <;>
  · rcases env with ⟨rl, sf, df, cm, fb, stf⟩
    cases rl
    · cases sf
      · by_cases hf : rtspFrames ⟨false, false, df, cm, fb, stf⟩ = 0
        · simp [process_rtsp_request, rtspTry, hf, List.count_append, List.count_cons]
        · cases stf
          · simp [process_rtsp_request, rtspTry, hf, List.count_append,
              List.count_cons, count_removeCapture_replicate_store]
          · simp [process_rtsp_request, rtspTry, hf, List.count_append, List.count_cons]
      · simp [process_rtsp_request, rtspTry, List.count_append, List.count_cons]
    · simp at h

/-- Witness for C5 (amended) on the all-success path. -/
theorem remove_runs_on_every_exit_path_witness :
    (⟨false, false, 3, .continuous, false, false⟩ : RtspEnv).resourceLimit = false
    ∧ 1 ≤ (process_rtsp_request
        ⟨false, false, 3, .continuous, false, false⟩).2.count Event.removeCapture
    ∧ (process_rtsp_request
        ⟨false, false, 3, .continuous, false, false⟩).2.count Event.removeCapture ≤ 2 := by
  have h := remove_runs_on_every_exit_path ⟨false, false, 3, .continuous, false, false⟩ rfl
  exact ⟨rfl, h.1, h.2.1⟩

/-- C6 (counterexample): request-level faults are re-raised past the
orchestrator boundary — a resource-limit fault makes `process_rtsp_request`
itself raise, and a batch fault makes `process_upload_request` raise, instead
of being absorbed. -/
theorem orchestrator_reraises_faults :
    (process_rtsp_request ⟨true, false, 0, .continuous, false, false⟩).1
      = .error .resourceLimit
    ∧ (process_upload_request ⟨true, 0, 0⟩).1 = .error .uploadBatch := by
  exact ⟨rfl, rfl⟩

/-- C6 (amended): every request-level fault in `process_rtsp_request` or
`process_upload_request` is recorded as a terminal FAILED status update
carrying a human-readable message and a structured detail payload — and is
then re-raised to the caller (the API layer maps it to an error response);
every request, successful or not, ends with a terminal status update. -/
theorem faults_set_terminal_failed_then_reraise (envR : RtspEnv) (envU : UploadEnv) :
    (∀ e, (process_rtsp_request envR).1 = .error e →
        (statusUpdates (process_rtsp_request envR).2).getLast?
          = some (.failed, true, true))
    ∧ ((process_rtsp_request envR).1 = .ok () →
        (statusUpdates (process_rtsp_request envR).2).getLast?
          = some (.completed, true, false))
    ∧ (statusUpdates (process_rtsp_request envR).2).getLast?.map
        (fun p => p.1.isTerminal) = some true
    ∧ (∀ e, (process_upload_request envU).1 = .error e →
        (statusUpdates (process_upload_request envU).2).getLast?
          = some (.failed, true, true))
    ∧ ((process_upload_request envU).1 = .ok () →
        (statusUpdates (process_upload_request envU).2).getLast?
          = some (.completed, true, false))
    ∧ (statusUpdates (process_upload_request envU).2).getLast?.map
        (fun p => p.1.isTerminal) = some true := by
  have hr := rtsp_statusUpdates envR
  have hu := upload_statusUpdates envU
  refine ⟨?_, ?_, ?_, ?_, ?_, ?_⟩
  · intro e he
    rw [he] at hr
    rw [hr]
    rfl
  · intro he
    rw [he] at hr
    rw [hr]
    rfl
  · cases hres : (process_rtsp_request envR).1 <;> rw [hres] at hr <;> rw [hr] <;> rfl
  · intro e he
    rw [he] at hu
    rw [hu]
    rfl
  · intro he
    rw [he] at hu
    rw [hu]
    rfl
  · cases hres : (process_upload_request envU).1 <;> rw [hres] at hu <;> rw [hu] <;> rfl

/-- Witness for C6 (amended): a failing stream request and a succeeding
upload request. -/
theorem faults_set_terminal_failed_then_reraise_witness :
    (statusUpdates (process_rtsp_request
        ⟨true, false, 0, .continuous, false, false⟩).2).getLast?
      = some (.failed, true, true)
    ∧ (statusUpdates (process_upload_request (⟨false, 2, 2⟩ : UploadEnv)).2).getLast?
      = some (.completed, true, false) := by
  have h := faults_set_terminal_failed_then_reraise
    ⟨true, false, 0, .continuous, false, false⟩ (⟨false, 2, 2⟩ : UploadEnv)
  exact ⟨h.1 .resourceLimit rfl, h.2.2.2.2.1 rfl⟩

/-- C7 (counterexample): with the default 30-second capture timeout and a
requested duration of 10 seconds, the spec's wait (min(timeout, duration))
would be 10 seconds, but the code sleeps min(duration, 5) = 5 seconds. -/
theorem wait_time_not_spec_min :
    rtspWaitTime (some 10) defaultRTSP = 5
    ∧ specWaitTime 10 defaultRTSP = 10
    ∧ rtspWaitTime (some 10) defaultRTSP ≠ specWaitTime 10 defaultRTSP := by
  decide

/-- C7 (amended): before draining, the orchestrator sleeps the smaller of the
requested duration and a hard-coded 5 seconds when a (nonzero) duration is
requested, and the smaller of the configured capture timeout and 5 seconds
otherwise; the configured capture timeout is not consulted when a duration is
given, and the wait never exceeds 5 seconds. -/
theorem wait_time_capped_at_five (s : RTSPSettings) (d : Nat) :
    rtspWaitTime (some d) s ≤ 5
    ∧ rtspWaitTime none s = min s.captureTimeout 5
    ∧ (0 < d → rtspWaitTime (some d) s = min d 5)
    ∧ (d = 0 → rtspWaitTime (some d) s = min s.captureTimeout 5) := by
  refine ⟨Nat.min_le_right _ _, rfl, ?_, ?_⟩
  · intro hd
    have hne : ¬ d = 0 := by omega
    simp [rtspWaitTime, hne]
  · intro hd
    subst hd
    rfl

/-- Witness for C7 (amended) at duration 10 with default settings. -/
theorem wait_time_capped_at_five_witness :
    rtspWaitTime (some 10) defaultRTSP ≤ 5
    ∧ (0 : Nat) < 10
    ∧ rtspWaitTime (some 10) defaultRTSP = min 10 5 := by
  have h := wait_time_capped_at_five defaultRTSP 10
  exact ⟨h.1, by decide, h.2.2.1 (by decide)⟩

end Syndicate
